import Mathlib

/-!
Shallow embedding of `mongoboiler` (src/client.go), a thin wrapper over the
MongoDB Go driver, together with theorems checking its specification.

The wrapper functions (`FindOne`, `FindMany`, `UpdateOne`, `UpdateMany`,
`InsertOne`, `InsertMany`, `DeleteOne`, `DeleteMany`, `Drop`,
`DB.NewCollection`) are translated line by line from src/client.go.  The
external MongoDB driver is not part of the repository; its calls are
represented by their outcomes, passed to the wrapper as explicit inputs, and
where a claim speaks about store-level behaviour (how many documents a filter
matches, which identifiers an insert produces) a small model of the driver's
documented semantics over an abstract document store is used, clearly marked
`driver...` below.
-/

namespace Mongoboiler

/-- Abstract Go `error` values; a Go `error` variable is `Option Err`
(`none` = nil). -/
abbrev Err := Nat

/-- Abstract decoded documents. -/
abbrev Doc := Nat

/-- Outcome of one successful `cursor.Next` followed by `cursor.Decode`
(src/client.go lines 52-54): the decode either yields a document or fails
with an error. -/
inductive DecodeOutcome where
  | ok (doc : Doc)
  | fail (e : Err)
deriving DecidableEq, Repr

/-- Behaviour of a (non-nil) driver cursor during one full iteration:
the decode outcomes of the successive `Next` results, and the terminal
error state `cursor.Err()` observed once `Next` returns false. -/
structure CursorBehavior where
  items : List DecodeOutcome
  termErr : Option Err
deriving DecidableEq, Repr

/-- Result of running `FindMany`.  `ret err res closes` is a normal return
carrying the returned error value, the final contents of the slice `*res`,
and how many times `cursor.Close` was called on the way out.  `panic` is a
Go runtime panic (nil-pointer dereference). -/
inductive GoResult where
  | panic
  | ret (err : Option Err) (res : List Doc) (closes : Nat)
deriving DecidableEq, Repr

/-- The `for cursor.Next(ctx) { ... }` loop of `FindMany`
(src/client.go lines 52-68) together with the code after it.
`findErr` is the (shadowed) `err` returned by `collection.Find` at line 49:
line 63 returns this outer `err`, not `cursor.Err()`.  A decode failure at
line 56 returns before `cursor.Close` at line 67 ever runs, as does the
return at line 63. -/
def findManyLoop (findErr : Option Err) (termErr : Option Err) :
    List DecodeOutcome → List Doc → GoResult
  | [], acc =>
      if termErr.isSome then
        GoResult.ret findErr acc 0
      else
        GoResult.ret none acc 1
  | DecodeOutcome.ok d :: rest, acc => findManyLoop findErr termErr rest (acc ++ [d])
  | DecodeOutcome.fail e :: _, acc => GoResult.ret (some e) acc 0

/-- `Collection.FindMany` (src/client.go lines 47-69).  The driver call
`c.collection.Find(c.ctx, filter)` returns either an error (in which case
the returned `*mongo.Cursor` is nil, so the immediate `cursor.Next(ctx)` at
line 52 dereferences a nil pointer and panics) or a usable cursor.  `res`
is the caller slice `*res` that the loop appends to. -/
def FindMany (findOutcome : Except Err CursorBehavior) (res : List Doc) : GoResult :=
  match findOutcome with
  | Except.error _ => GoResult.panic
  | Except.ok cur => findManyLoop none cur.termErr cur.items res

/-- `Collection.FindOne` (src/client.go lines 38-44).  The driver call
`c.collection.FindOne(c.ctx, filter).Decode(res)` is represented by its
outcome `sr`: on success the single result is decoded into the caller
container `res`; on failure `Decode` returns the error without writing to
`res` (driver guarantee: `Decode` returns `ErrNoDocuments` or a decode
error before touching the target).  Returns the Go error value together
with the final state of the container. -/
def FindOne (sr : Except Err Doc) (res : Option Doc) : Option Err × Option Doc :=
  match sr with
  | Except.error e => (some e, res)
  | Except.ok d => (none, some d)

/-- The `*mongo.UpdateResult` fields the wrapper reads
(src/client.go lines 78 and 88). -/
structure UpdateResult where
  matchedCount : Nat
  modifiedCount : Nat
deriving DecidableEq, Repr

/-- `Collection.UpdateOne` (src/client.go lines 73-79): on a driver error
returns `0, 0, err`; otherwise forwards `MatchedCount` and `ModifiedCount`
with a nil error. -/
def UpdateOne (outcome : Except Err UpdateResult) : Nat × Nat × Option Err :=
  match outcome with
  | Except.error e => (0, 0, some e)
  | Except.ok r => (r.matchedCount, r.modifiedCount, none)

/-- `Collection.UpdateMany` (src/client.go lines 83-89): same shape as
`UpdateOne`. -/
def UpdateMany (outcome : Except Err UpdateResult) : Nat × Nat × Option Err :=
  match outcome with
  | Except.error e => (0, 0, some e)
  | Except.ok r => (r.matchedCount, r.modifiedCount, none)

/-- Values of Go type `any` that the insert wrappers return: the empty
string literal `""` of the error branches, a single inserted ID, or a list
of inserted IDs. -/
inductive GoAny where
  | str (s : String)
  | id (n : Nat)
  | ids (l : List Nat)
deriving DecidableEq, Repr

/-- `Collection.InsertOne` (src/client.go lines 93-99): on a driver error
returns `"", err`; otherwise returns `insertRes.InsertedID, nil`. -/
def InsertOne (outcome : Except Err Nat) : GoAny × Option Err :=
  match outcome with
  | Except.error e => (GoAny.str "", some e)
  | Except.ok i => (GoAny.id i, none)

/-- `Collection.InsertMany` (src/client.go lines 103-109): on a driver
error returns `"", err`; otherwise returns `insertRes.InsertedIDs, nil`. -/
def InsertMany (outcome : Except Err (List Nat)) : GoAny × Option Err :=
  match outcome with
  | Except.error e => (GoAny.str "", some e)
  | Except.ok l => (GoAny.ids l, none)

/-- `Collection.DeleteOne` (src/client.go lines 112-118): the driver
returns a `*DeleteResult` (carrying the deleted count) and an error; the
result is bound to `_` and discarded, and only the error (or nil) is
returned. -/
def DeleteOne (outcome : Nat × Option Err) : Option Err :=
  match outcome with
  | (_, some e) => some e
  | (_, none) => none

/-- `Collection.DeleteMany` (src/client.go lines 121-127): same shape as
`DeleteOne`. -/
def DeleteMany (outcome : Nat × Option Err) : Option Err :=
  match outcome with
  | (_, some e) => some e
  | (_, none) => none

/-- `Collection.Drop` (src/client.go lines 33-35): forwards the driver
error value unchanged. -/
def Drop (outcome : Option Err) : Option Err :=
  outcome

/-! ## Handle construction (src/client.go lines 12-30) -/

/-- Abstract `*mongo.Client`. -/
structure MClient where
  handle : Nat
deriving DecidableEq, Repr

/-- Abstract `context.Context`. -/
abbrev MContext := Nat

/-- Abstract `*mongo.Database`: the driver binds a client to a database
name. -/
structure MDatabase where
  client : MClient
  name : String
deriving DecidableEq, Repr

/-- Driver `client.Database(name)`. -/
def MClient.Database (c : MClient) (name : String) : MDatabase :=
  ⟨c, name⟩

/-- Abstract `*mongo.Collection`: the driver binds a database to a
collection name. -/
structure MCollection where
  db : MDatabase
  name : String
deriving DecidableEq, Repr

/-- Driver `db.Collection(name)`. -/
def MDatabase.Collection (d : MDatabase) (name : String) : MCollection :=
  ⟨d, name⟩

/-- `DB` (src/client.go lines 12-16). -/
structure DB where
  db : MDatabase
  client : MClient
  ctx : MContext
deriving DecidableEq, Repr

/-- `New` (src/client.go lines 18-20). -/
def New (client : MClient) (name : String) (ctx : MContext) : DB :=
  ⟨client.Database name, client, ctx⟩

/-- `Collection` (src/client.go lines 23-26): embeds `*DB` (the same
pointer as the parent handle) plus the driver collection handle. -/
structure Collection where
  toDB : DB
  collection : MCollection
deriving DecidableEq, Repr

/-- `(*DB).NewCollection` (src/client.go lines 28-30): pure construction,
no driver I/O and no validation. -/
def DB.NewCollection (wrapper : DB) (collectionName : String) : Collection :=
  ⟨wrapper, wrapper.db.Collection collectionName⟩

/-! ## Model of the external driver over an abstract document store

The MongoDB driver is outside the repository; the definitions below model
its documented store-level semantics so that claims phrased as "for every
filter matching M documents ..." can be stated.  A store is a `List Doc`
and a filter a decidable predicate on documents. -/

/-- The distinguished driver error `mongo.ErrNoDocuments`. -/
def errNoDocuments : Err := 0

/-- Driver `FindOne(...).Decode`: the single result holds the first
matching document, or `ErrNoDocuments` when nothing matches. -/
def driverFindOne (docs : List Doc) (p : Doc → Bool) : Except Err Doc :=
  match docs.filter p with
  | [] => Except.error errNoDocuments
  | d :: _ => Except.ok d

/-- Driver `UpdateOne` result on success: matches at most the first
matching document; it is modified when the update actually changes it. -/
def driverUpdateOne (docs : List Doc) (p : Doc → Bool) (u : Doc → Doc) : UpdateResult :=
  match docs.filter p with
  | [] => ⟨0, 0⟩
  | d :: _ => ⟨1, if u d = d then 0 else 1⟩

/-- Driver `UpdateMany` result on success: matches every matching
document; the modified count is the number of matched documents the update
actually changes. -/
def driverUpdateMany (docs : List Doc) (p : Doc → Bool) (u : Doc → Doc) : UpdateResult :=
  ⟨docs.countP p, (docs.filter p).countP (fun d => decide (u d ≠ d))⟩

/-- Driver `DeleteOne` deleted count on success: at most one matching
document is deleted. -/
def driverDeleteOne (docs : List Doc) (p : Doc → Bool) : Nat :=
  min (docs.countP p) 1

/-- Driver `DeleteMany` deleted count on success: every matching document
is deleted. -/
def driverDeleteMany (docs : List Doc) (p : Doc → Bool) : Nat :=
  docs.countP p

/-- Driver id generation for an ordered batch insert: the i-th inserted
document receives the id produced for position i and that document. -/
def genIdsFrom (gen : Nat → Doc → Nat) : Nat → List Doc → List Nat
  | _, [] => []
  | i, d :: rest => gen i d :: genIdsFrom gen (i + 1) rest

/-- Driver `InsertMany` inserted-IDs list on success: one id per input
document, positionally corresponding to the input order. -/
def driverInsertManyIds (docs : List Doc) (gen : Nat → Doc → Nat) : List Nat :=
  genIdsFrom gen 0 docs

/-! ## Theorems -/

/-- C1: the spec states that every driver error is forwarded unchanged, in
particular that `FindMany` returns the error of a failing `Find` call.  The
code never checks the `err` returned by `Find` at line 49: when `Find`
fails the returned cursor is nil, and `cursor.Next(ctx)` at line 52
dereferences it, so `FindMany` panics instead of returning the error.  This
theorem evaluates `FindMany` at such a failing input (Find error 7). -/
theorem C1_findMany_panics_when_find_fails :
    FindMany (Except.error 7) [] = GoResult.panic := rfl

/-- C2: the spec states that `FindMany` releases the cursor exactly once
regardless of outcome.  In the code `cursor.Close` (line 67) is reached
only on the full-success path: a decode failure (line 56) and a terminal
cursor error (line 63) both return without closing.  This theorem
evaluates the three outcomes: a decode failure closes 0 times, a terminal
cursor error closes 0 times, and only full success closes once. -/
theorem C2_cursor_close_counts :
    FindMany (Except.ok ⟨[DecodeOutcome.fail 3], none⟩) [] =
      GoResult.ret (some 3) [] 0 ∧
    FindMany (Except.ok ⟨[DecodeOutcome.ok 1], some 2⟩) [] =
      GoResult.ret none [1] 0 ∧
    FindMany (Except.ok ⟨[DecodeOutcome.ok 1], none⟩) [] =
      GoResult.ret none [1] 1 :=
  ⟨rfl, rfl, rfl⟩

/-- C3: the spec states that a non-nil terminal cursor error is returned
to the caller together with the partial results.  At line 63 the code
returns the outer `err` from `Find` (nil on every path that reaches the
loop) instead of `cursor.Err()`, so the terminal error is swallowed.  This
theorem evaluates `FindMany` on a cursor that yields document 1 and then
ends with terminal error 5: the partial result [1] is retained, but the
returned error is nil, not 5 (and the cursor is not closed). -/
theorem C3_terminal_error_swallowed :
    FindMany (Except.ok ⟨[DecodeOutcome.ok 1], some 5⟩) [] =
      GoResult.ret none [1] 0 :=
  rfl

theorem findManyLoop_all_ok (docs acc : List Doc) :
    findManyLoop none none (docs.map DecodeOutcome.ok) acc =
      GoResult.ret none (acc ++ docs) 1 := by
  induction docs generalizing acc with
  | nil => simp [findManyLoop]
  | cons d rest ih => simp [findManyLoop, ih]

/-- C4: a successful `FindMany` over a cursor of N documents appends
exactly those N decoded documents to the caller slice, in cursor order:
the final slice is the initial slice followed by the documents in the
order the cursor produced them. -/
theorem C4_findMany_success_appends_in_order (docs res : List Doc) :
    FindMany (Except.ok ⟨docs.map DecodeOutcome.ok, none⟩) res =
      GoResult.ret none (res ++ docs) 1 :=
  findManyLoop_all_ok docs res

/-- C5: when the filter matches zero documents, `FindOne` returns a
non-nil error (the driver single result is `ErrNoDocuments` and `Decode`
forwards it) and the caller container is left exactly as it was. -/
theorem C5_findOne_no_match (docs : List Doc) (p : Doc → Bool) (res : Option Doc)
    (h : docs.countP p = 0) :
    (FindOne (driverFindOne docs p) res).1.isSome = true ∧
    (FindOne (driverFindOne docs p) res).2 = res := by
  have hf : docs.filter p = [] := by
    rw [List.countP_eq_length_filter] at h
    exact List.length_eq_zero.mp h
  simp [driverFindOne, hf, FindOne]

/-- Witness for C5 at a concrete store and never-matching filter, with
the container in its zero state. -/
theorem C5_findOne_no_match_witness :
    ([1, 2] : List Doc).countP (fun _ => false) = 0 ∧
    ((FindOne (driverFindOne [1, 2] (fun _ => false)) none).1.isSome = true ∧
     (FindOne (driverFindOne [1, 2] (fun _ => false)) none).2 = none) :=
  ⟨by decide, C5_findOne_no_match [1, 2] (fun _ => false) none (by decide)⟩

/-- C6 counterexample: the claim requires a successful `UpdateOne` on a
filter matching M documents to return `matchedCount = M`.  With store
[0, 1] and a filter matching both documents (M = 2), the driver matches at
most one document, so `UpdateOne` returns `matchedCount = 1 ≠ 2`. -/
theorem C6_counterexample :
    ([0, 1] : List Doc).countP (fun _ => true) = 2 ∧
    (UpdateOne (Except.ok (driverUpdateOne [0, 1] (fun _ => true) (fun d => d)))).1 = 1 ∧
    (UpdateOne (Except.ok (driverUpdateOne [0, 1] (fun _ => true) (fun d => d)))).1 ≠
      ([0, 1] : List Doc).countP (fun _ => true) := by
  refine ⟨by decide, by decide, by decide⟩

theorem driverUpdateOne_matched (docs : List Doc) (p : Doc → Bool) (u : Doc → Doc) :
    (driverUpdateOne docs p u).matchedCount = min (docs.countP p) 1 := by
  rw [List.countP_eq_length_filter]
  unfold driverUpdateOne
  rcases docs.filter p with _ | ⟨d, rest⟩
  · rfl
  · simp [Nat.min_def]

theorem driverUpdateOne_modified_le (docs : List Doc) (p : Doc → Bool) (u : Doc → Doc) :
    (driverUpdateOne docs p u).modifiedCount ≤ (driverUpdateOne docs p u).matchedCount := by
  unfold driverUpdateOne
  rcases docs.filter p with _ | ⟨d, rest⟩
  · exact Nat.le_refl 0
  · dsimp
    split <;> omega

theorem driverUpdateMany_modified_le (docs : List Doc) (p : Doc → Bool) (u : Doc → Doc) :
    (driverUpdateMany docs p u).modifiedCount ≤ (driverUpdateMany docs p u).matchedCount := by
  unfold driverUpdateMany
  dsimp
  rw [List.countP_eq_length_filter, List.countP_eq_length_filter]
  exact List.length_filter_le _ _

/-- C6 amended: for every successful `UpdateOne`, `matchedCount` equals
min(M, 1) — in particular both counts are 0 or 1 — and
`modifiedCount ≤ matchedCount`; for every successful `UpdateMany` on a
filter matching M documents, `matchedCount = M` and
`modifiedCount ≤ matchedCount`. -/
theorem C6_amended (docs : List Doc) (p : Doc → Bool) (u : Doc → Doc) :
    (UpdateOne (Except.ok (driverUpdateOne docs p u))).1 = min (docs.countP p) 1 ∧
    (UpdateOne (Except.ok (driverUpdateOne docs p u))).1 ≤ 1 ∧
    (UpdateOne (Except.ok (driverUpdateOne docs p u))).2.1 ≤
      (UpdateOne (Except.ok (driverUpdateOne docs p u))).1 ∧
    (UpdateMany (Except.ok (driverUpdateMany docs p u))).1 = docs.countP p ∧
    (UpdateMany (Except.ok (driverUpdateMany docs p u))).2.1 ≤
      (UpdateMany (Except.ok (driverUpdateMany docs p u))).1 := by
  refine ⟨driverUpdateOne_matched docs p u, ?_,
    driverUpdateOne_modified_le docs p u, rfl, driverUpdateMany_modified_le docs p u⟩
  show (driverUpdateOne docs p u).matchedCount ≤ 1
  rw [driverUpdateOne_matched]
  exact Nat.min_le_right _ _

/-- C7: when the driver delete call succeeds (nil error), `DeleteOne` and
`DeleteMany` return nil whatever the matched/deleted count was — including
zero — and the deleted count reported by the driver is discarded: the
wrapper return type carries no count at all. -/
theorem C7_delete_success_nil_error (docs : List Doc) (p : Doc → Bool) :
    DeleteOne (driverDeleteOne docs p, none) = none ∧
    DeleteMany (driverDeleteMany docs p, none) = none :=
  ⟨rfl, rfl⟩

theorem genIdsFrom_length (gen : Nat → Doc → Nat) (s : Nat) (docs : List Doc) :
    (genIdsFrom gen s docs).length = docs.length := by
  induction docs generalizing s with
  | nil => rfl
  | cons d rest ih => simp [genIdsFrom, ih]

theorem genIdsFrom_getElem (gen : Nat → Doc → Nat) (docs : List Doc) (s i : Nat) :
    (genIdsFrom gen s docs)[i]? = docs[i]?.map (gen (s + i)) := by
  induction docs generalizing s i with
  | nil => simp [genIdsFrom]
  | cons d rest ih =>
    cases i with
    | zero => simp [genIdsFrom]
    | succ j =>
      have h := ih (s + 1) j
      simp only [genIdsFrom, List.getElem?_cons_succ, h]
      have h2 : s + 1 + j = s + (j + 1) := by omega
      rw [h2]

/-- C8: a successful `InsertMany` on K input documents returns exactly K
inserted identifiers with a nil error, and the i-th identifier is the one
the driver generated for the i-th input document. -/
theorem C8_insertMany_success (docs : List Doc) (gen : Nat → Doc → Nat) :
    InsertMany (Except.ok (driverInsertManyIds docs gen)) =
      (GoAny.ids (driverInsertManyIds docs gen), none) ∧
    (driverInsertManyIds docs gen).length = docs.length ∧
    ∀ i : Nat, (driverInsertManyIds docs gen)[i]? = docs[i]?.map (gen i) := by
  refine ⟨rfl, genIdsFrom_length gen 0 docs, ?_⟩
  intro i
  simpa using genIdsFrom_getElem gen docs 0 i

/-- C9: `NewCollection` stores the parent `DB` handle itself in the new
collection handle, so the collection handle's context and client are the
very values held by the parent, and the driver collection is obtained by
pure construction from the parent database and the name (the embedding is
a total pure function: no I/O, no validation). -/
theorem C9_newCollection_inherits (wrapper : DB) (collectionName : String) :
    (wrapper.NewCollection collectionName).toDB = wrapper ∧
    (wrapper.NewCollection collectionName).toDB.ctx = wrapper.ctx ∧
    (wrapper.NewCollection collectionName).toDB.client = wrapper.client ∧
    (wrapper.NewCollection collectionName).collection =
      wrapper.db.Collection collectionName :=
  ⟨rfl, rfl, rfl, rfl⟩

/-- C10: when the driver reports an error, `UpdateOne` and `UpdateMany`
return counts (0, 0) with that error, and `InsertOne` and `InsertMany`
return the empty string `""` (not a nil value and not an empty list) with
that error. -/
theorem C10_error_branch_returns (e : Err) :
    UpdateOne (Except.error e) = (0, 0, some e) ∧
    UpdateMany (Except.error e) = (0, 0, some e) ∧
    InsertOne (Except.error e) = (GoAny.str "", some e) ∧
    InsertMany (Except.error e) = (GoAny.str "", some e) ∧
    (InsertMany (Except.error e)).1 ≠ GoAny.ids [] := by
  refine ⟨rfl, rfl, rfl, rfl, by simp [InsertMany]⟩

end Mongoboiler
